import Mathlib

/-!
Shallow embedding of `src/model/abstract_model.py` (Project MIMOSA):
the abstract Pyomo optimal-control model coupling climate dynamics and
regional economic growth.  Exogenous data series and the economics
helper functions (`model.common.data`, `model.common.economics`) are
external collaborators and are modelled as abstract function fields;
everything declared in `abstract_model.py` itself (variables,
parameters, constraint relations, initial conditions, objective) is
translated faithfully below.
-/

namespace MIMOSA

/-- Sum of a real-valued function over an ordered list of regions
(the Pyomo `sum(f(r) for r in m.regions)`). -/
noncomputable def sumR {ρ : Type} (l : List ρ) (f : ρ → ℝ) : ℝ :=
  (l.map f).sum

/-- Source: `np.trapz(f(xs), x=xs)`: composite trapezoidal rule over the sample
points `xs`. -/
noncomputable def trapz (f : ℝ → ℝ) : List ℝ → ℝ
  | x₁ :: x₂ :: rest => (x₂ - x₁) * (f x₁ + f x₂) / 2 + trapz f (x₂ :: rest)
  | _ => 0

/-- Source: `np.linspace(a, b, n)`: `n` evenly spaced samples from `a` to `b`
inclusive. -/
noncomputable def linspace (a b : ℝ) (n : ℕ) : List ℝ :=
  (List.range n).map fun i => a + (b - a) * i / (n - 1)

/-- External data and economics collaborators (out of the core's scope:
`model.common.data` interpolation series and `model.common.economics`
functions), consumed as black boxes by the abstract model. -/
structure ExtData (ρ : Type) where
  baseline : ℝ → ρ → ℝ
  population : ℝ → ρ → ℝ
  TFP : ℝ → ρ → ℝ
  GDP : ℝ → ρ → ℝ
  damage_fct : ℝ → ℝ → ℝ → ℝ
  AC : ℝ → ℝ → ℝ → ℝ → ℝ
  MAC : ℝ → ℝ → ℝ → ℝ → ℝ
  calc_GDP : ℝ → ℝ → ℝ → ℝ → ℝ

/-- Source: `m.baseline_cumulative(t_end, region)`:
`np.trapz(m.baseline(np.linspace(0, t_end, 100), r), x=...)`. -/
noncomputable def baseline_cumulative {ρ : Type} (ext : ExtData ρ) (t_end : ℝ) (r : ρ) : ℝ :=
  trapz (fun t => ext.baseline t r) (linspace 0 t_end 100)

/-- The nested parameter mapping (`params`), restricted to the fields the
abstract model reads, plus the savings rate `sr` that the parameter-source
interface provides.  Optional emission constraints use `Option` for the
`False` disabled sentinel. -/
structure Params (ρ : Type) where
  beginyear : ℝ
  endyear : ℝ
  carbonbudget : Option ℝ
  inertia_regional : Option ℝ
  inertia_global : Option ℝ
  min_level : Option ℝ
  LBD_rate : ℝ
  T0 : ℝ
  TCRE : ℝ
  damage_coeff : ℝ
  MAC_gamma : ℝ
  MAC_beta : ℝ
  alpha : ℝ
  dk : ℝ
  elasmu : ℝ
  PRTP : ℝ
  sr : ℝ
  init_capitalstock : ρ → ℝ
  damage_factor : ρ → ℝ
  regionList : List ρ

/-- Source: `m.tf = m.endyear - m.beginyear`. -/
noncomputable def tf {ρ : Type} (p : Params ρ) : ℝ := p.endyear - p.beginyear

/-- Source: `m.year2100 = 2100 - m.beginyear`. -/
noncomputable def year2100 {ρ : Type} (p : Params ρ) : ℝ := 2100 - p.beginyear

/-- Source: `m.log_LBD_rate = log(m.LBD_rate) / log(2)`. -/
noncomputable def log_LBD_rate {ρ : Type} (p : Params ρ) : ℝ :=
  Real.log p.LBD_rate / Real.log 2

/-- Source: `LBD_scaling = Quant('40 GtCO2', 'emissions_unit')` in model units. -/
noncomputable def LBD_scaling : ℝ := 40

/-- Source: `m.LOT_rate = Param(initialize=0)`: hard-coded to zero in the source. -/
noncomputable def LOT_rate : ℝ := 0

/-- A trajectory: one value for every declared model variable, as a
function of continuous time (and region for the regional variables).
Derivative variables (`DerivativeVar`) are carried as separate
trajectories, linked to their states in the feasibility predicate. -/
structure Traj (ρ : Type) where
  temperature : ℝ → ℝ
  cumulative_emissions : ℝ → ℝ
  global_emissions : ℝ → ℝ
  NPV : ℝ → ℝ
  relative_abatement : ℝ → ρ → ℝ
  capital_stock : ℝ → ρ → ℝ
  regional_emissions : ℝ → ρ → ℝ
  cumulative_emissionsdot : ℝ → ℝ
  global_emissionsdot : ℝ → ℝ
  NPVdot : ℝ → ℝ
  capital_stockdot : ℝ → ρ → ℝ
  regional_emissionsdot : ℝ → ρ → ℝ
  LBD_factor : ℝ → ℝ
  LOT_factor : ℝ → ℝ
  learning_factor : ℝ → ℝ
  damage_costs : ℝ → ρ → ℝ
  abatement_costs : ℝ → ρ → ℝ
  carbonprice : ℝ → ρ → ℝ
  GDP_gross : ℝ → ρ → ℝ
  GDP_net : ℝ → ρ → ℝ
  investments : ℝ → ρ → ℝ
  consumption : ℝ → ρ → ℝ
  utility : ℝ → ρ → ℝ

/-- A registered relation at a given time point (and region): either the
rule applies (`active` holds) and imposes `rel`, or it is skipped
(`Constraint.Skip`), imposing nothing. -/
structure TRel where
  active : Prop
  rel : Prop

/-- What a registered relation imposes on a trajectory. -/
def TRel.holds (c : TRel) : Prop := c.active → c.rel

/-- An unconditional relation (every non-`Skip` Pyomo rule). -/
def always (P : Prop) : TRel := ⟨True, P⟩

/-- Tags identifying each global (time-indexed) constraint appended to
`global_constraints`, in source order. -/
inductive GTag where
  | emissions_sum
  | cumul_dot
  | temperature
  | budget
  | inertia_global
  | min_level
  | lbd
  | lot
  | learning
  | npv
deriving DecidableEq

/-- Tags identifying each regional (time×region-indexed) constraint
appended to `regional_constraints`, in source order. -/
inductive RTag where
  | regional_emissions
  | inertia_regional
  | damage
  | abatement
  | carbonprice
  | gdp_gross
  | gdp_net
  | investments
  | consumption
  | utility
  | capital
deriving DecidableEq

/-- A global constraint as committed to the model: its identity tag and
its relation as a function of the trajectory and the time point. -/
structure GRule (ρ : Type) where
  tag : GTag
  rel : Traj ρ → ℝ → TRel

/-- A regional constraint as committed to the model. -/
structure RRule (ρ : Type) where
  tag : RTag
  rel : Traj ρ → ℝ → ρ → TRel

/-- Source: `m.regional_emissions[t,r] == (1 - m.relative_abatement[t,r]) * m.baseline(t,r)`. -/
def regional_emissions_rule {ρ : Type} (ext : ExtData ρ) (traj : Traj ρ)
    (t : ℝ) (r : ρ) : TRel :=
  always (traj.regional_emissions t r =
    (1 - traj.relative_abatement t r) * ext.baseline t r)

/-- Source: `m.global_emissions[t] == sum(m.regional_emissions[t,r] for r in m.regions)`. -/
def emissions_sum_rule {ρ : Type} (p : Params ρ) (traj : Traj ρ) (t : ℝ) : TRel :=
  always (traj.global_emissions t =
    sumR p.regionList fun r => traj.regional_emissions t r)

/-- Source: `m.cumulative_emissionsdot[t] == m.global_emissions[t]`. -/
def cumul_dot_rule {ρ : Type} (traj : Traj ρ) (t : ℝ) : TRel :=
  always (traj.cumulative_emissionsdot t = traj.global_emissions t)

/-- Source: `m.temperature[t] == m.T0 + m.TCRE * m.cumulative_emissions[t]`. -/
def temperature_rule {ρ : Type} (p : Params ρ) (traj : Traj ρ) (t : ℝ) : TRel :=
  always (traj.temperature t = p.T0 + p.TCRE * traj.cumulative_emissions t)

/-- Source: `(m.cumulative_emissions[t] - budget <= 0) if t >= m.year2100 else Constraint.Skip`. -/
def budget_rule {ρ : Type} (p : Params ρ) (B : ℝ) (traj : Traj ρ) (t : ℝ) : TRel :=
  ⟨year2100 p ≤ t, traj.cumulative_emissions t - B ≤ 0⟩

/-- Source: `m.regional_emissionsdot[t,r] >= inertia_regional * m.baseline(0,r)`. -/
def inertia_regional_rule {ρ : Type} (ext : ExtData ρ) (v : ℝ) (traj : Traj ρ)
    (t : ℝ) (r : ρ) : TRel :=
  always (traj.regional_emissionsdot t r ≥ v * ext.baseline 0 r)

/-- Source: `m.global_emissionsdot[t] >= inertia_global * sum(m.baseline(0,r) for r in m.regions)`. -/
def inertia_global_rule {ρ : Type} (p : Params ρ) (ext : ExtData ρ) (v : ℝ)
    (traj : Traj ρ) (t : ℝ) : TRel :=
  always (traj.global_emissionsdot t ≥ v * sumR p.regionList fun r => ext.baseline 0 r)

/-- Source: `m.global_emissions[t] >= Quant(min_level, 'emissionsrate_unit')`. -/
def min_level_rule {ρ : Type} (v : ℝ) (traj : Traj ρ) (t : ℝ) : TRel :=
  always (traj.global_emissions t ≥ v)

/-- Source: `m.LBD_factor[t] == ((sum(m.baseline_cumulative(t,r) for r) - m.cumulative_emissions[t]) / LBD_scaling + 1.0) ** m.log_LBD_rate`. -/
def lbd_rule {ρ : Type} (p : Params ρ) (ext : ExtData ρ) (traj : Traj ρ) (t : ℝ) : TRel :=
  always (traj.LBD_factor t =
    (((sumR p.regionList fun r => baseline_cumulative ext t r) -
      traj.cumulative_emissions t) / LBD_scaling + 1) ^ log_LBD_rate p)

/-- Source: `m.LOT_factor[t] == 1 / (1 + m.LOT_rate) ** t`. -/
def lot_rule {ρ : Type} (traj : Traj ρ) (t : ℝ) : TRel :=
  always (traj.LOT_factor t = 1 / (1 + LOT_rate) ^ t)

/-- Source: `m.learning_factor[t] == m.LBD_factor[t] * m.LOT_factor[t]`. -/
def learning_rule {ρ : Type} (traj : Traj ρ) (t : ℝ) : TRel :=
  always (traj.learning_factor t = traj.LBD_factor t * traj.LOT_factor t)

/-- Source: `m.NPVdot[t] == exp(-m.PRTP * t) * sum(m.utility[t,r] for r in m.regions)`. -/
def npv_rule {ρ : Type} (p : Params ρ) (traj : Traj ρ) (t : ℝ) : TRel :=
  always (traj.NPVdot t =
    Real.exp (-p.PRTP * t) * sumR p.regionList fun r => traj.utility t r)

/-- Source: `m.damage_costs[t,r] == m.damage_factor[r] * economics.damage_fct(m.temperature[t], m.damage_coeff, m.T0)`. -/
def damage_rule {ρ : Type} (p : Params ρ) (ext : ExtData ρ) (traj : Traj ρ)
    (t : ℝ) (r : ρ) : TRel :=
  always (traj.damage_costs t r =
    p.damage_factor r * ext.damage_fct (traj.temperature t) p.damage_coeff p.T0)

/-- Source: `m.abatement_costs[t,r] == economics.AC(m.relative_abatement[t,r], m.learning_factor[t], m.MAC_gamma, m.MAC_beta) * m.baseline(t,r)`. -/
def abatement_rule {ρ : Type} (p : Params ρ) (ext : ExtData ρ) (traj : Traj ρ)
    (t : ℝ) (r : ρ) : TRel :=
  always (traj.abatement_costs t r =
    ext.AC (traj.relative_abatement t r) (traj.learning_factor t)
      p.MAC_gamma p.MAC_beta * ext.baseline t r)

/-- Source: `m.carbonprice[t,r] == economics.MAC(m.relative_abatement[t,r], m.learning_factor[t], m.MAC_gamma, m.MAC_beta)`. -/
def carbonprice_rule {ρ : Type} (p : Params ρ) (ext : ExtData ρ) (traj : Traj ρ)
    (t : ℝ) (r : ρ) : TRel :=
  always (traj.carbonprice t r =
    ext.MAC (traj.relative_abatement t r) (traj.learning_factor t)
      p.MAC_gamma p.MAC_beta)

/-- Source: `m.GDP_gross[t,r] == economics.calc_GDP(m.TFP(t,r), m.L(t,r), m.capital_stock[t,r], m.alpha)`. -/
def gdp_gross_rule {ρ : Type} (p : Params ρ) (ext : ExtData ρ) (traj : Traj ρ)
    (t : ℝ) (r : ρ) : TRel :=
  always (traj.GDP_gross t r =
    ext.calc_GDP (ext.TFP t r) (ext.population t r) (traj.capital_stock t r) p.alpha)

/-- Source: `m.GDP_net[t,r] == m.GDP_gross[t,r] * (1 - m.damage_costs[t,r]) - m.abatement_costs[t,r]`. -/
def gdp_net_rule {ρ : Type} (traj : Traj ρ) (t : ℝ) (r : ρ) : TRel :=
  always (traj.GDP_net t r =
    traj.GDP_gross t r * (1 - traj.damage_costs t r) - traj.abatement_costs t r)

/-- Source: `m.investments[t,r] == m.sr * m.GDP_net[t,r]`.  The symbol `m.sr` is a
`Param()` declared with no initial value, so the value `srv` it receives at
instantiation is a free input of the relation. -/
def investments_rule {ρ : Type} (srv : ℝ) (traj : Traj ρ) (t : ℝ) (r : ρ) : TRel :=
  always (traj.investments t r = srv * traj.GDP_net t r)

/-- Source: `m.consumption[t,r] == (1 - m.sr) * m.GDP_net[t,r]`. -/
def consumption_rule {ρ : Type} (srv : ℝ) (traj : Traj ρ) (t : ℝ) (r : ρ) : TRel :=
  always (traj.consumption t r = (1 - srv) * traj.GDP_net t r)

/-- Source: `m.utility[t,r] == m.L(t,r) * ((m.consumption[t,r] / m.L(t,r)) ** (1 - m.elasmu) - 1) / (1 - m.elasmu)`. -/
def utility_rule {ρ : Type} (p : Params ρ) (ext : ExtData ρ) (traj : Traj ρ)
    (t : ℝ) (r : ρ) : TRel :=
  always (traj.utility t r =
    ext.population t r *
      ((traj.consumption t r / ext.population t r) ^ (1 - p.elasmu) - 1) /
      (1 - p.elasmu))

/-- Source: `m.capital_stockdot[t,r] == np.log(1 - m.dk) * m.capital_stock[t,r] + m.investments[t,r]`. -/
def capital_rule {ρ : Type} (p : Params ρ) (traj : Traj ρ) (t : ℝ) (r : ρ) : TRel :=
  always (traj.capital_stockdot t r =
    Real.log (1 - p.dk) * traj.capital_stock t r + traj.investments t r)

/-- The `global_constraints` list as assembled, in source order; the
optional carbon-budget, global-inertia and minimum-level relations are
appended only when the corresponding parameter is not the disabled
sentinel. -/
def globalRules {ρ : Type} (p : Params ρ) (ext : ExtData ρ) : List (GRule ρ) :=
  [⟨.emissions_sum, fun traj t => emissions_sum_rule p traj t⟩,
   ⟨.cumul_dot, fun traj t => cumul_dot_rule traj t⟩,
   ⟨.temperature, fun traj t => temperature_rule p traj t⟩]
  ++ (match p.carbonbudget with
      | some B => [⟨.budget, fun traj t => budget_rule p B traj t⟩]
      | none => [])
  ++ (match p.inertia_global with
      | some v => [⟨.inertia_global, fun traj t => inertia_global_rule p ext v traj t⟩]
      | none => [])
  ++ (match p.min_level with
      | some v => [⟨.min_level, fun traj t => min_level_rule v traj t⟩]
      | none => [])
  ++ [⟨.lbd, fun traj t => lbd_rule p ext traj t⟩,
      ⟨.lot, fun traj t => lot_rule traj t⟩,
      ⟨.learning, fun traj t => learning_rule traj t⟩,
      ⟨.npv, fun traj t => npv_rule p traj t⟩]

/-- The `regional_constraints` list as assembled, in source order; the
optional regional-inertia relation is appended only when configured. -/
def regionalRules {ρ : Type} (p : Params ρ) (ext : ExtData ρ) (srv : ℝ) :
    List (RRule ρ) :=
  [⟨.regional_emissions, fun traj t r => regional_emissions_rule ext traj t r⟩]
  ++ (match p.inertia_regional with
      | some v => [⟨.inertia_regional, fun traj t r => inertia_regional_rule ext v traj t r⟩]
      | none => [])
  ++ [⟨.damage, fun traj t r => damage_rule p ext traj t r⟩,
      ⟨.abatement, fun traj t r => abatement_rule p ext traj t r⟩,
      ⟨.carbonprice, fun traj t r => carbonprice_rule p ext traj t r⟩,
      ⟨.gdp_gross, fun traj t r => gdp_gross_rule p ext traj t r⟩,
      ⟨.gdp_net, fun traj t r => gdp_net_rule traj t r⟩,
      ⟨.investments, fun traj t r => investments_rule srv traj t r⟩,
      ⟨.consumption, fun traj t r => consumption_rule srv traj t r⟩,
      ⟨.utility, fun traj t r => utility_rule p ext traj t r⟩,
      ⟨.capital, fun traj t r => capital_rule p traj t r⟩]

/-- The model variable an initial-condition constraint fixes at `t = 0`
(regional variables carry the region they are fixed for). -/
inductive InitTarget (ρ : Type) where
  | temperature
  | regional_emissions (r : ρ)
  | capital_stock (r : ρ)
  | carbonprice (r : ρ)
  | global_emissions
  | cumulative_emissions
  | NPV
deriving DecidableEq

/-- One entry of the `m.init` constraint list: which variable it fixes,
and the equality it imposes. -/
structure InitC (ρ : Type) where
  target : InitTarget ρ
  eqn : Prop

/-- The `_init(m)` generator: the ordered list of initial-condition
constraints yielded at model assembly. -/
def initList {ρ : Type} (p : Params ρ) (ext : ExtData ρ) (traj : Traj ρ) :
    List (InitC ρ) :=
  ⟨.temperature, traj.temperature 0 = p.T0⟩ ::
  (p.regionList.flatMap fun r =>
    [⟨.regional_emissions r, traj.regional_emissions 0 r = ext.baseline 0 r⟩,
     ⟨.capital_stock r, traj.capital_stock 0 r = p.init_capitalstock r⟩,
     ⟨.carbonprice r, traj.carbonprice 0 r = 0⟩])
  ++ [⟨.global_emissions, traj.global_emissions 0 = sumR p.regionList fun r => ext.baseline 0 r⟩,
      ⟨.cumulative_emissions, traj.cumulative_emissions 0 = 0⟩,
      ⟨.NPV, traj.NPV 0 = 0⟩]

/-- Value assignment status of the scalar economic `Param` declarations:
`some v` when the declaration carries `initialize=...` drawn from the
parameter mapping, `none` when the `Param` is declared bare. -/
structure ParamAssignments where
  alpha : Option ℝ
  dk : Option ℝ
  elasmu : Option ℝ
  PRTP : Option ℝ
  MAC_gamma : Option ℝ
  MAC_beta : Option ℝ
  sr : Option ℝ

/-- Assembly of the scalar economic parameters, as declared in the source:
`m.alpha`, `m.dk`, `m.elasmu`, `m.PRTP`, `m.MAC_gamma`, `m.MAC_beta` all
carry `initialize=params[...]`, while `m.sr = Param()` is declared with no
value. -/
def assembledParams {ρ : Type} (p : Params ρ) : ParamAssignments :=
  { alpha := some p.alpha
    dk := some p.dk
    elasmu := some p.elasmu
    PRTP := some p.PRTP
    MAC_gamma := some p.MAC_gamma
    MAC_beta := some p.MAC_beta
    sr := none }

/-- Optimisation sense of the declared objective. -/
inductive ObjSense where
  | minimize
  | maximize
deriving DecidableEq

/-- Source: `m.obj = Objective(rule=lambda m: m.NPV[m.tf], sense=maximize)`:
the objective expression. -/
noncomputable def objectiveExpr {ρ : Type} (p : Params ρ) (traj : Traj ρ) : ℝ :=
  traj.NPV (tf p)

/-- The declared optimisation sense. -/
def objectiveSense : ObjSense := .maximize

/-- A trajectory satisfies every committed global relation at every time
point of the continuous domain `[0, tf]`. -/
def SatGlobal {ρ : Type} (p : Params ρ) (ext : ExtData ρ) (traj : Traj ρ) : Prop :=
  ∀ g ∈ globalRules p ext, ∀ t ∈ Set.Icc (0 : ℝ) (tf p), (g.rel traj t).holds

/-- A trajectory satisfies every committed regional relation at every time
point and region. -/
def SatRegional {ρ : Type} (p : Params ρ) (ext : ExtData ρ) (srv : ℝ)
    (traj : Traj ρ) : Prop :=
  ∀ g ∈ regionalRules p ext srv, ∀ t ∈ Set.Icc (0 : ℝ) (tf p),
    ∀ r ∈ p.regionList, (g.rel traj t r).holds

/-- A trajectory satisfies every initial-condition constraint. -/
def SatInit {ρ : Type} (p : Params ρ) (ext : ExtData ρ) (traj : Traj ρ) : Prop :=
  ∀ c ∈ initList p ext traj, c.eqn

/-- The declared bounds `bounds=(0, 2)` on the control variable
`m.relative_abatement`. -/
def SatBounds {ρ : Type} (p : Params ρ) (traj : Traj ρ) : Prop :=
  ∀ t ∈ Set.Icc (0 : ℝ) (tf p), ∀ r ∈ p.regionList,
    0 ≤ traj.relative_abatement t r ∧ traj.relative_abatement t r ≤ 2

/-- The `DerivativeVar` semantics: on the time domain, the dot trajectory
is the derivative of its state trajectory. -/
def DerivLink (tfv : ℝ) (x xd : ℝ → ℝ) : Prop :=
  ∀ t ∈ Set.Icc (0 : ℝ) tfv, HasDerivAt x (xd t) t

/-- All five declared `DerivativeVar` linkages. -/
def DerivLinks {ρ : Type} (p : Params ρ) (traj : Traj ρ) : Prop :=
  DerivLink (tf p) traj.cumulative_emissions traj.cumulative_emissionsdot ∧
  DerivLink (tf p) traj.global_emissions traj.global_emissionsdot ∧
  DerivLink (tf p) traj.NPV traj.NPVdot ∧
  (∀ r ∈ p.regionList,
    DerivLink (tf p) (fun t => traj.capital_stock t r) (fun t => traj.capital_stockdot t r)) ∧
  (∀ r ∈ p.regionList,
    DerivLink (tf p) (fun t => traj.regional_emissions t r) (fun t => traj.regional_emissionsdot t r))

/-- A feasible trajectory of the assembled model: it satisfies all
committed global and regional relations, all initial conditions, the
control bounds, and the derivative-variable linkages.  `srv` is the value
the bare `Param()` `m.sr` receives at instantiation. -/
def Feasible {ρ : Type} (p : Params ρ) (ext : ExtData ρ) (srv : ℝ)
    (traj : Traj ρ) : Prop :=
  SatGlobal p ext traj ∧ SatRegional p ext srv traj ∧ SatInit p ext traj ∧
  SatBounds p traj ∧ DerivLinks p traj

/-- The globally-indexed `DerivativeVar` declarations. -/
inductive GDV where
  | cumulative_emissionsdot
  | global_emissionsdot
  | NPVdot
deriving DecidableEq

/-- The regionally-indexed `DerivativeVar` declarations. -/
inductive RDV where
  | capital_stockdot
  | regional_emissionsdot
deriving DecidableEq

/-- Which derivative variable a global relation defines: the relation is
an equality whose left-hand side is that derivative variable
(`cumulative_emissionsdot[t] == ...` and `NPVdot[t] == ...`).  The
optional global-inertia relation mentions `global_emissionsdot` only in
an inequality bound and defines nothing. -/
def gDefines : GTag → Option GDV
  | .cumul_dot => some .cumulative_emissionsdot
  | .npv => some .NPVdot
  | _ => none

/-- Which derivative variable a regional relation defines
(`capital_stockdot[t,r] == ...`); the optional regional-inertia relation
is an inequality bound on `regional_emissionsdot` and defines nothing. -/
def rDefines : RTag → Option RDV
  | .capital => some .capital_stockdot
  | _ => none

/-- Number of committed global relations that define a given derivative
variable. -/
def gDefCount {ρ : Type} (p : Params ρ) (ext : ExtData ρ) (d : GDV) : ℕ :=
  (globalRules p ext).countP fun g => decide (gDefines g.tag = some d)

/-- Number of committed regional relations that define a given derivative
variable. -/
def rDefCount {ρ : Type} (p : Params ρ) (ext : ExtData ρ) (srv : ℝ) (d : RDV) : ℕ :=
  (regionalRules p ext srv).countP fun g => decide (rDefines g.tag = some d)

/-- Number of initial-condition constraints fixing a given variable. -/
def initCount {ρ : Type} [DecidableEq ρ] (p : Params ρ) (ext : ExtData ρ)
    (traj : Traj ρ) (tgt : InitTarget ρ) : ℕ :=
  (initList p ext traj).countP fun c => decide (c.target = tgt)

/-- Concrete single-region external data: zero baseline, unit population,
zero economics collaborators. -/
noncomputable def ext0 : ExtData Unit where
  baseline := fun _ _ => 0
  population := fun _ _ => 1
  TFP := fun _ _ => 0
  GDP := fun _ _ => 0
  damage_fct := fun _ _ _ => 0
  AC := fun _ _ _ _ => 0
  MAC := fun _ _ _ _ => 0
  calc_GDP := fun _ _ _ _ => 0

/-- Concrete single-region parameter set (2020–2100), with a selectable
carbon-budget option and all other optional constraints disabled. -/
noncomputable def p0cb (cb : Option ℝ) : Params Unit where
  beginyear := 2020
  endyear := 2100
  carbonbudget := cb
  inertia_regional := none
  inertia_global := none
  min_level := none
  LBD_rate := 1
  T0 := 1
  TCRE := 1
  damage_coeff := 0
  MAC_gamma := 0
  MAC_beta := 0
  alpha := 1 / 2
  dk := 0
  elasmu := 2
  PRTP := 0
  sr := 1 / 5
  init_capitalstock := fun _ => 0
  damage_factor := fun _ => 1
  regionList := [()]

/-- The concrete parameter set with the carbon budget disabled. -/
noncomputable def p0 : Params Unit := p0cb none

/-- A concrete trajectory: full abatement, all emissions zero,
temperature at `T0 = 1`, zero economy, unit utility, `NPV t = t`. -/
noncomputable def trivTraj : Traj Unit where
  temperature := fun _ => 1
  cumulative_emissions := fun _ => 0
  global_emissions := fun _ => 0
  NPV := fun t => t
  relative_abatement := fun _ _ => 1
  capital_stock := fun _ _ => 0
  regional_emissions := fun _ _ => 0
  cumulative_emissionsdot := fun _ => 0
  global_emissionsdot := fun _ => 0
  NPVdot := fun _ => 1
  capital_stockdot := fun _ _ => 0
  regional_emissionsdot := fun _ _ => 0
  LBD_factor := fun _ => 1
  LOT_factor := fun _ => 1
  learning_factor := fun _ => 1
  damage_costs := fun _ _ => 0
  abatement_costs := fun _ _ => 0
  carbonprice := fun _ _ => 0
  GDP_gross := fun _ _ => 0
  GDP_net := fun _ _ => 0
  investments := fun _ _ => 0
  consumption := fun _ _ => 0
  utility := fun _ _ => 1

/-- A degenerate configuration: zero time span (`endyear = beginyear`)
and an empty region set. -/
noncomputable def badP : Params Unit :=
  { p0cb none with endyear := 2020, regionList := [] }

section Extraction

variable {ρ : Type} {p : Params ρ} {ext : ExtData ρ} {srv : ℝ} {traj : Traj ρ}

theorem sat_emissions_sum (h : SatGlobal p ext traj) {t : ℝ}
    (ht : t ∈ Set.Icc (0 : ℝ) (tf p)) :
    traj.global_emissions t = sumR p.regionList fun r => traj.regional_emissions t r := by
  have hm : (⟨.emissions_sum, fun traj t => emissions_sum_rule p traj t⟩ : GRule ρ) ∈
      globalRules p ext := by simp [globalRules]
  exact h _ hm t ht trivial

theorem sat_cumul_dot (h : SatGlobal p ext traj) {t : ℝ}
    (ht : t ∈ Set.Icc (0 : ℝ) (tf p)) :
    traj.cumulative_emissionsdot t = traj.global_emissions t := by
  have hm : (⟨.cumul_dot, fun traj t => cumul_dot_rule traj t⟩ : GRule ρ) ∈
      globalRules p ext := by simp [globalRules]
  exact h _ hm t ht trivial

theorem sat_temperature (h : SatGlobal p ext traj) {t : ℝ}
    (ht : t ∈ Set.Icc (0 : ℝ) (tf p)) :
    traj.temperature t = p.T0 + p.TCRE * traj.cumulative_emissions t := by
  have hm : (⟨.temperature, fun traj t => temperature_rule p traj t⟩ : GRule ρ) ∈
      globalRules p ext := by simp [globalRules]
  exact h _ hm t ht trivial

theorem sat_budget {B : ℝ} (hcb : p.carbonbudget = some B)
    (h : SatGlobal p ext traj) {t : ℝ} (ht : t ∈ Set.Icc (0 : ℝ) (tf p))
    (h21 : year2100 p ≤ t) :
    traj.cumulative_emissions t - B ≤ 0 := by
  have hm : (⟨.budget, fun traj t => budget_rule p B traj t⟩ : GRule ρ) ∈
      globalRules p ext := by simp [globalRules, hcb]
  exact h _ hm t ht h21

theorem sat_lbd (h : SatGlobal p ext traj) {t : ℝ}
    (ht : t ∈ Set.Icc (0 : ℝ) (tf p)) :
    traj.LBD_factor t =
      (((sumR p.regionList fun r => baseline_cumulative ext t r) -
        traj.cumulative_emissions t) / LBD_scaling + 1) ^ log_LBD_rate p := by
  have hm : (⟨.lbd, fun traj t => lbd_rule p ext traj t⟩ : GRule ρ) ∈
      globalRules p ext := by simp [globalRules]
  exact h _ hm t ht trivial

theorem sat_lot (h : SatGlobal p ext traj) {t : ℝ}
    (ht : t ∈ Set.Icc (0 : ℝ) (tf p)) :
    traj.LOT_factor t = 1 / (1 + LOT_rate) ^ t := by
  have hm : (⟨.lot, fun traj t => lot_rule traj t⟩ : GRule ρ) ∈
      globalRules p ext := by simp [globalRules]
  exact h _ hm t ht trivial

theorem sat_learning (h : SatGlobal p ext traj) {t : ℝ}
    (ht : t ∈ Set.Icc (0 : ℝ) (tf p)) :
    traj.learning_factor t = traj.LBD_factor t * traj.LOT_factor t := by
  have hm : (⟨.learning, fun traj t => learning_rule traj t⟩ : GRule ρ) ∈
      globalRules p ext := by simp [globalRules]
  exact h _ hm t ht trivial

theorem sat_npv (h : SatGlobal p ext traj) {t : ℝ}
    (ht : t ∈ Set.Icc (0 : ℝ) (tf p)) :
    traj.NPVdot t =
      Real.exp (-p.PRTP * t) * sumR p.regionList fun r => traj.utility t r := by
  have hm : (⟨.npv, fun traj t => npv_rule p traj t⟩ : GRule ρ) ∈
      globalRules p ext := by simp [globalRules]
  exact h _ hm t ht trivial

theorem sat_regional_emissions (h : SatRegional p ext srv traj) {t : ℝ}
    (ht : t ∈ Set.Icc (0 : ℝ) (tf p)) {r : ρ} (hr : r ∈ p.regionList) :
    traj.regional_emissions t r =
      (1 - traj.relative_abatement t r) * ext.baseline t r := by
  have hm : (⟨.regional_emissions, fun traj t r => regional_emissions_rule ext traj t r⟩ :
      RRule ρ) ∈ regionalRules p ext srv := by simp [regionalRules]
  exact h _ hm t ht r hr trivial

theorem sat_carbonprice (h : SatRegional p ext srv traj) {t : ℝ}
    (ht : t ∈ Set.Icc (0 : ℝ) (tf p)) {r : ρ} (hr : r ∈ p.regionList) :
    traj.carbonprice t r =
      ext.MAC (traj.relative_abatement t r) (traj.learning_factor t)
        p.MAC_gamma p.MAC_beta := by
  have hm : (⟨.carbonprice, fun traj t r => carbonprice_rule p ext traj t r⟩ :
      RRule ρ) ∈ regionalRules p ext srv := by simp [regionalRules]
  exact h _ hm t ht r hr trivial

theorem sat_init_temperature (h : SatInit p ext traj) :
    traj.temperature 0 = p.T0 :=
  h ⟨.temperature, traj.temperature 0 = p.T0⟩ (by simp [initList])

theorem sat_init_cumulative (h : SatInit p ext traj) :
    traj.cumulative_emissions 0 = 0 :=
  h ⟨.cumulative_emissions, traj.cumulative_emissions 0 = 0⟩ (by simp [initList])

theorem sat_init_npv (h : SatInit p ext traj) : traj.NPV 0 = 0 :=
  h ⟨.NPV, traj.NPV 0 = 0⟩ (by simp [initList])

theorem sat_init_capital (h : SatInit p ext traj) {r : ρ} (hr : r ∈ p.regionList) :
    traj.capital_stock 0 r = p.init_capitalstock r := by
  refine h ⟨.capital_stock r, traj.capital_stock 0 r = p.init_capitalstock r⟩ ?_
  simp only [initList, List.mem_cons, List.mem_append, List.mem_flatMap]
  exact Or.inl (Or.inr ⟨r, hr, by simp⟩)

theorem sat_init_carbonprice (h : SatInit p ext traj) {r : ρ} (hr : r ∈ p.regionList) :
    traj.carbonprice 0 r = 0 := by
  refine h ⟨.carbonprice r, traj.carbonprice 0 r = 0⟩ ?_
  simp only [initList, List.mem_cons, List.mem_append, List.mem_flatMap]
  exact Or.inl (Or.inr ⟨r, hr, by simp⟩)

end Extraction

/-- Trapezoidal quadrature of the zero function vanishes. -/
theorem trapz_zero : ∀ l : List ℝ, trapz (fun _ => (0 : ℝ)) l = 0
  | [] => rfl
  | [_] => rfl
  | _ :: x₂ :: rest => by
    rw [trapz, trapz_zero (x₂ :: rest)]
    ring

/-- Trapezoidal quadrature over coincident sample points vanishes. -/
theorem trapz_eq_zero_of_const_points (f : ℝ → ℝ) (c : ℝ) :
    ∀ l : List ℝ, (∀ x ∈ l, x = c) → trapz f l = 0
  | [], _ => rfl
  | [_], _ => rfl
  | x₁ :: x₂ :: rest, h => by
    have h₁ : x₁ = c := h x₁ (by simp)
    have h₂ : x₂ = c := h x₂ (by simp)
    have hrec := trapz_eq_zero_of_const_points f c (x₂ :: rest)
      (fun x hx => h x (List.mem_cons_of_mem _ hx))
    rw [trapz, hrec, h₁, h₂]
    ring

/-- All samples of `np.linspace(a, a, n)` equal `a`. -/
theorem linspace_self (a : ℝ) (n : ℕ) : ∀ x ∈ linspace a a n, x = a := by
  intro x hx
  simp only [linspace, List.mem_map] at hx
  obtain ⟨i, _, rfl⟩ := hx
  ring

/-- Source: `m.baseline_cumulative(0, r) = 0`: the quadrature from time 0 to
time 0 vanishes, for any baseline series. -/
theorem baseline_cumulative_zero {ρ : Type} (ext : ExtData ρ) (r : ρ) :
    baseline_cumulative ext 0 r = 0 :=
  trapz_eq_zero_of_const_points _ 0 _ (linspace_self 0 100)

/-- A region sum of zeros is zero. -/
theorem sumR_eq_zero {ρ : Type} {l : List ρ} {f : ρ → ℝ}
    (h : ∀ r ∈ l, f r = 0) : sumR l f = 0 := by
  rw [sumR]
  exact List.sum_eq_zero (by simpa using fun r hr => h r hr)

/-- The concrete trajectory is feasible for the concrete parameter set,
for any nonnegative carbon budget option and instantiated savings rate 0. -/
theorem trivTraj_feasible (cb : Option ℝ) (hcb : ∀ B, cb = some B → 0 ≤ B) :
    Feasible (p0cb cb) ext0 0 trivTraj := by
  refine ⟨?_, ?_, ?_, ?_, ?_⟩
  · intro g hg t _
    rcases cb with _ | B
    · fin_cases hg <;>
        simp [TRel.holds, always, emissions_sum_rule, cumul_dot_rule,
          temperature_rule, lbd_rule, lot_rule, learning_rule, npv_rule,
          trivTraj, p0cb, ext0, sumR, LOT_rate, LBD_scaling,
          baseline_cumulative, trapz_zero, Real.one_rpow, Real.exp_zero]
    · fin_cases hg
      on_goal 4 =>
        intro _
        have hB := hcb B rfl
        simp only [budget_rule, trivTraj]
        linarith
      all_goals
        simp [TRel.holds, always, emissions_sum_rule, cumul_dot_rule,
          temperature_rule, lbd_rule, lot_rule, learning_rule, npv_rule,
          trivTraj, p0cb, ext0, sumR, LOT_rate, LBD_scaling,
          baseline_cumulative, trapz_zero, Real.one_rpow, Real.exp_zero]
  · intro g hg t _ r _
    fin_cases hg
    on_goal 9 =>
      simp only [TRel.holds, always, utility_rule, trivTraj, ext0, p0cb]
      intro _
      have h0 : ((0 : ℝ) / 1) ^ ((1 : ℝ) - 2) = 0 := by
        rw [zero_div]
        exact Real.zero_rpow (by norm_num)
      rw [h0]
      norm_num
    all_goals
      simp [TRel.holds, always, regional_emissions_rule, damage_rule,
        abatement_rule, carbonprice_rule, gdp_gross_rule, gdp_net_rule,
        investments_rule, consumption_rule, utility_rule, capital_rule,
        trivTraj, p0cb, ext0, Real.log_one]
  · intro c hc
    fin_cases hc <;>
      simp [trivTraj, p0cb, ext0, sumR]
  · intro t _ r _
    constructor <;> norm_num [trivTraj]
  · refine ⟨?_, ?_, ?_, ?_, ?_⟩
    · intro t _; exact hasDerivAt_const t 0
    · intro t _; exact hasDerivAt_const t 0
    · intro t _; simpa [trivTraj] using hasDerivAt_id t
    · intro r _ t _; exact hasDerivAt_const t 0
    · intro r _ t _; exact hasDerivAt_const t 0

/-- C1: for every region `r` and every time `t` in the model time domain,
the registered regional-emissions relation enforces
`regional_emissions(t,r) == (1 - relative_abatement(t,r)) * baseline(t,r)`
as an exact algebraic identity on every feasible trajectory. -/
theorem C1_regional_emissions_identity {ρ : Type} (p : Params ρ) (ext : ExtData ρ)
    (srv : ℝ) (traj : Traj ρ) (h : Feasible p ext srv traj) :
    ∀ t ∈ Set.Icc (0 : ℝ) (tf p), ∀ r ∈ p.regionList,
      traj.regional_emissions t r =
        (1 - traj.relative_abatement t r) * ext.baseline t r :=
  fun _ ht _ hr => sat_regional_emissions h.2.1 ht hr

/-- Witness for C1 at the concrete feasible instance, `t = 0`. -/
theorem C1_witness :
    trivTraj.regional_emissions 0 () =
      (1 - trivTraj.relative_abatement 0 ()) * ext0.baseline 0 () :=
  C1_regional_emissions_identity p0 ext0 0 trivTraj
    (trivTraj_feasible none (fun _ h => nomatch h)) 0
    (Set.mem_Icc.mpr ⟨le_refl 0, by norm_num [tf, p0, p0cb]⟩) ()
    (by simp [p0, p0cb])

/-- C4: every feasible trajectory of the assembled model satisfies, at
`t = 0`: `temperature(0) == T0`, `cumulative_emissions(0) == 0`,
`NPV(0) == 0`, and `capital_stock(0,r) == init_capitalstock(r)` for every
region `r`. -/
theorem C4_initial_conditions {ρ : Type} (p : Params ρ) (ext : ExtData ρ)
    (srv : ℝ) (traj : Traj ρ) (h : Feasible p ext srv traj) :
    traj.temperature 0 = p.T0 ∧ traj.cumulative_emissions 0 = 0 ∧
    traj.NPV 0 = 0 ∧
    ∀ r ∈ p.regionList, traj.capital_stock 0 r = p.init_capitalstock r :=
  ⟨sat_init_temperature h.2.2.1, sat_init_cumulative h.2.2.1,
   sat_init_npv h.2.2.1, fun _ hr => sat_init_capital h.2.2.1 hr⟩

/-- Witness for C4 at the concrete feasible instance. -/
theorem C4_witness :
    trivTraj.temperature 0 = p0.T0 ∧ trivTraj.cumulative_emissions 0 = 0 ∧
    trivTraj.NPV 0 = 0 ∧
    trivTraj.capital_stock 0 () = p0.init_capitalstock () := by
  obtain ⟨h1, h2, h3, h4⟩ := C4_initial_conditions p0 ext0 0 trivTraj
    (trivTraj_feasible none (fun _ h => nomatch h))
  exact ⟨h1, h2, h3, h4 () (by simp [p0, p0cb])⟩

/-- C10: on every feasible trajectory, `carbonprice(0,r)` is fixed both
by the registered carbon-price relation instantiated at `t = 0` and by
the separate initial condition `carbonprice(0,r) == 0`, so the marginal
abatement cost at the time-0 control must vanish:
`MAC(relative_abatement(0,r), learning_factor(0), gamma, beta) == 0`. -/
theorem C10_carbonprice_doubly_constrained {ρ : Type} (p : Params ρ)
    (ext : ExtData ρ) (srv : ℝ) (traj : Traj ρ) (h : Feasible p ext srv traj)
    (htf : 0 ≤ tf p) :
    ∀ r ∈ p.regionList,
      traj.carbonprice 0 r = 0 ∧
      ext.MAC (traj.relative_abatement 0 r) (traj.learning_factor 0)
        p.MAC_gamma p.MAC_beta = 0 := by
  intro r hr
  have h0 : (0 : ℝ) ∈ Set.Icc (0 : ℝ) (tf p) := Set.mem_Icc.mpr ⟨le_refl 0, htf⟩
  have hcp := sat_carbonprice h.2.1 h0 hr
  have hinit := sat_init_carbonprice h.2.2.1 hr
  exact ⟨hinit, by rw [← hcp]; exact hinit⟩

/-- Witness for C10 at the concrete feasible instance. -/
theorem C10_witness :
    trivTraj.carbonprice 0 () = 0 ∧
    ext0.MAC (trivTraj.relative_abatement 0 ()) (trivTraj.learning_factor 0)
      p0.MAC_gamma p0.MAC_beta = 0 :=
  C10_carbonprice_doubly_constrained p0 ext0 0 trivTraj
    (trivTraj_feasible none (fun _ h => nomatch h))
    (by norm_num [tf, p0, p0cb]) () (by simp [p0, p0cb])

/-- C7: the claim's premises hold by construction at `t = 0` — the
learning-over-time rate is hard-coded to zero
(`m.LOT_rate = Param(initialize=0)`), the cumulative baseline emissions
`baseline_cumulative(0,r)` vanish for every region, and
`cumulative_emissions(0) == 0` on every feasible trajectory — and under
them both learning sub-factors and the learning factor itself equal one:
`LBD_factor(0) == 1`, `LOT_factor(0) == 1`, `learning_factor(0) == 1`. -/
theorem C7_learning_factor_at_zero {ρ : Type} (p : Params ρ) (ext : ExtData ρ)
    (srv : ℝ) (traj : Traj ρ) (h : Feasible p ext srv traj) (htf : 0 ≤ tf p) :
    LOT_rate = 0 ∧
    (∀ r ∈ p.regionList, baseline_cumulative ext 0 r = 0) ∧
    traj.cumulative_emissions 0 = 0 ∧
    traj.LBD_factor 0 = 1 ∧ traj.LOT_factor 0 = 1 ∧
    traj.learning_factor 0 = 1 := by
  have h0 : (0 : ℝ) ∈ Set.Icc (0 : ℝ) (tf p) := Set.mem_Icc.mpr ⟨le_refl 0, htf⟩
  have hcum := sat_init_cumulative h.2.2.1
  have hsum : sumR p.regionList (fun r => baseline_cumulative ext 0 r) = 0 :=
    sumR_eq_zero fun r _ => baseline_cumulative_zero ext r
  have hlbd : traj.LBD_factor 0 = 1 := by
    rw [sat_lbd h.1 h0, hcum, hsum, LBD_scaling]
    norm_num [Real.one_rpow]
  have hlot : traj.LOT_factor 0 = 1 := by
    rw [sat_lot h.1 h0, LOT_rate]
    norm_num [Real.rpow_zero]
  refine ⟨rfl, fun r _ => baseline_cumulative_zero ext r, hcum, hlbd, hlot, ?_⟩
  rw [sat_learning h.1 h0, hlbd, hlot, mul_one]

/-- Witness for C7 at the concrete feasible instance. -/
theorem C7_witness :
    LOT_rate = 0 ∧ baseline_cumulative ext0 0 () = 0 ∧
    trivTraj.cumulative_emissions 0 = 0 ∧
    trivTraj.LBD_factor 0 = 1 ∧ trivTraj.LOT_factor 0 = 1 ∧
    trivTraj.learning_factor 0 = 1 := by
  obtain ⟨h1, h2, h3, h4, h5, h6⟩ := C7_learning_factor_at_zero p0 ext0 0 trivTraj
    (trivTraj_feasible none (fun _ h => nomatch h))
    (by norm_num [tf, p0, p0cb])
  exact ⟨h1, h2 () (by simp [p0, p0cb]), h3, h4, h5, h6⟩

/-- C5: every feasible trajectory satisfies the NPV differential equation
`d(NPV)/dt == exp(-PRTP * t) * Σ_r utility(t,r)` (both as the registered
algebraic relation on `NPVdot` and as a genuine derivative of the `NPV`
state), and the declared objective is to maximize the terminal value
`NPV(tf)`. -/
theorem C5_npv_dynamics_and_objective {ρ : Type} (p : Params ρ)
    (ext : ExtData ρ) (srv : ℝ) (traj : Traj ρ) (h : Feasible p ext srv traj) :
    (∀ t ∈ Set.Icc (0 : ℝ) (tf p),
      traj.NPVdot t =
        Real.exp (-p.PRTP * t) * sumR p.regionList (fun r => traj.utility t r) ∧
      HasDerivAt traj.NPV
        (Real.exp (-p.PRTP * t) * sumR p.regionList fun r => traj.utility t r) t) ∧
    objectiveExpr p traj = traj.NPV (tf p) ∧ objectiveSense = ObjSense.maximize := by
  refine ⟨fun t ht => ⟨sat_npv h.1 ht, ?_⟩, rfl, rfl⟩
  have hd := h.2.2.2.2.2.2.1 t ht
  rwa [sat_npv h.1 ht] at hd

/-- Witness for C5 at the concrete feasible instance, `t = 0`. -/
theorem C5_witness :
    (trivTraj.NPVdot 0 =
      Real.exp (-p0.PRTP * 0) * sumR p0.regionList (fun r => trivTraj.utility 0 r) ∧
     HasDerivAt trivTraj.NPV
       (Real.exp (-p0.PRTP * 0) * sumR p0.regionList fun r => trivTraj.utility 0 r) 0) ∧
    objectiveExpr p0 trivTraj = trivTraj.NPV (tf p0) ∧
    objectiveSense = ObjSense.maximize := by
  obtain ⟨h1, h2⟩ := C5_npv_dynamics_and_objective p0 ext0 0 trivTraj
    (trivTraj_feasible none (fun _ h => nomatch h))
  exact ⟨h1 0 (Set.mem_Icc.mpr ⟨le_refl 0, by norm_num [tf, p0, p0cb]⟩), h2⟩

/-- C3: on any feasible trajectory with full abatement
(`relative_abatement(t,r) = 1` everywhere), regional emissions vanish
identically, hence cumulative emissions stay at their zero initial value
and temperature stays at `T0`, throughout the time domain. -/
theorem C3_full_abatement {ρ : Type} (p : Params ρ) (ext : ExtData ρ)
    (srv : ℝ) (traj : Traj ρ) (h : Feasible p ext srv traj)
    (hab : ∀ t ∈ Set.Icc (0 : ℝ) (tf p), ∀ r ∈ p.regionList,
      traj.relative_abatement t r = 1) :
    (∀ t ∈ Set.Icc (0 : ℝ) (tf p), ∀ r ∈ p.regionList,
      traj.regional_emissions t r = 0) ∧
    (∀ t ∈ Set.Icc (0 : ℝ) (tf p), traj.cumulative_emissions t = 0) ∧
    (∀ t ∈ Set.Icc (0 : ℝ) (tf p), traj.temperature t = p.T0) := by
  have hre : ∀ t ∈ Set.Icc (0 : ℝ) (tf p), ∀ r ∈ p.regionList,
      traj.regional_emissions t r = 0 := by
    intro t ht r hr
    rw [sat_regional_emissions h.2.1 ht hr, hab t ht r hr]
    ring
  have hge : ∀ t ∈ Set.Icc (0 : ℝ) (tf p), traj.global_emissions t = 0 := by
    intro t ht
    rw [sat_emissions_sum h.1 ht]
    exact sumR_eq_zero fun r hr => hre t ht r hr
  have hcd : ∀ t ∈ Set.Icc (0 : ℝ) (tf p), traj.cumulative_emissionsdot t = 0 := by
    intro t ht
    rw [sat_cumul_dot h.1 ht, hge t ht]
  have hlink := h.2.2.2.2.1
  have hcum : ∀ t ∈ Set.Icc (0 : ℝ) (tf p), traj.cumulative_emissions t = 0 := by
    have hcont : ContinuousOn traj.cumulative_emissions (Set.Icc 0 (tf p)) :=
      fun x hx => ((hlink x hx).continuousAt).continuousWithinAt
    have hderiv : ∀ x ∈ Set.Ico (0 : ℝ) (tf p),
        HasDerivWithinAt traj.cumulative_emissions 0 (Set.Ici x) x := by
      intro x hx
      have hx' : x ∈ Set.Icc (0 : ℝ) (tf p) := Set.Ico_subset_Icc_self hx
      have hdw : HasDerivWithinAt traj.cumulative_emissions
          (traj.cumulative_emissionsdot x) (Set.Ici x) x :=
        (hlink x hx').hasDerivWithinAt
      rwa [hcd x hx'] at hdw
    have hconst := constant_of_has_deriv_right_zero hcont hderiv
    intro t ht
    rw [hconst t ht, sat_init_cumulative h.2.2.1]
  refine ⟨hre, hcum, fun t ht => ?_⟩
  rw [sat_temperature h.1 ht, hcum t ht]
  ring

/-- Witness for C3 at the concrete feasible instance (zero baseline,
full abatement), evaluated at `t = 0`. -/
theorem C3_witness :
    trivTraj.regional_emissions 0 () = 0 ∧
    trivTraj.cumulative_emissions 0 = 0 ∧
    trivTraj.temperature 0 = p0.T0 := by
  obtain ⟨h1, h2, h3⟩ := C3_full_abatement p0 ext0 0 trivTraj
    (trivTraj_feasible none (fun _ h => nomatch h))
    (fun _ _ _ _ => rfl)
  have h0 : (0 : ℝ) ∈ Set.Icc (0 : ℝ) (tf p0) :=
    Set.mem_Icc.mpr ⟨le_refl 0, by norm_num [tf, p0, p0cb]⟩
  exact ⟨h1 0 h0 () (by simp [p0, p0cb]), h2 0 h0, h3 0 h0⟩

/-- C2: with a carbon budget `B` configured, every feasible trajectory
keeps `cumulative_emissions(t) ≤ B` for all domain times `t ≥ year2100`;
for `t < year2100` the registered budget rule is skipped (no relation is
imposed, rather than a slack one); and with the budget disabled, no
budget relation is committed to the model at all. -/
theorem C2_carbon_budget {ρ : Type} (p : Params ρ) (ext : ExtData ρ)
    (srv : ℝ) (traj : Traj ρ) (B : ℝ) (hcb : p.carbonbudget = some B)
    (h : Feasible p ext srv traj) :
    (∀ t ∈ Set.Icc (0 : ℝ) (tf p), year2100 p ≤ t →
      traj.cumulative_emissions t ≤ B) ∧
    (∀ (traj' : Traj ρ) (t : ℝ), t < year2100 p →
      ¬(budget_rule p B traj' t).active) ∧
    (∀ (q : Params ρ) (ext' : ExtData ρ), q.carbonbudget = none →
      GTag.budget ∉ (globalRules q ext').map GRule.tag) := by
  refine ⟨fun t ht h21 => ?_, fun traj' t hlt => ?_, fun q ext' hq => ?_⟩
  · have hb := sat_budget hcb h.1 ht h21
    linarith
  · simp only [budget_rule]
    exact not_le.mpr hlt
  · cases hig : q.inertia_global <;> cases hml : q.min_level <;>
      simp [globalRules, hq, hig, hml]

/-- Witness for C2: budget `B = 1` at the concrete feasible instance,
checked at the domain endpoint `t = 80 = year2100`, skipped at `t = 0`,
and absent for the budget-disabled parameter set `p0`. -/
theorem C2_witness :
    trivTraj.cumulative_emissions 80 ≤ 1 ∧
    ¬(budget_rule (p0cb (some 1)) 1 trivTraj 0).active ∧
    GTag.budget ∉ (globalRules p0 ext0).map GRule.tag := by
  obtain ⟨h1, h2, h3⟩ := C2_carbon_budget (p0cb (some 1)) ext0 0 trivTraj 1 rfl
    (trivTraj_feasible (some 1) (fun B hB => by cases hB; norm_num))
  refine ⟨h1 80 ?_ ?_, h2 trivTraj 0 ?_, h3 p0 ext0 rfl⟩
  · exact Set.mem_Icc.mpr ⟨by norm_num, by norm_num [tf, p0cb]⟩
  · norm_num [year2100, p0cb]
  · norm_num [year2100, p0cb]

/-- C8 counterexample: the savings rate is NOT assigned a value from the
parameter set during assembly — `m.sr = Param()` is declared bare, unlike
every other economic coefficient — so the assembled assignment of `sr` is
`none`, not `some p0.sr`. -/
theorem C8_counterexample :
    (assembledParams p0).sr = none ∧ (assembledParams p0).sr ≠ some p0.sr := by
  constructor
  · rfl
  · simp [assembledParams]

/-- C8 amended: during assembly, `alpha`, `dk`, `elasmu`, `PRTP` and the
MAC `gamma`/`beta` coefficients are each assigned their value from the
parameter set, and the investment relation `investments == sr * GDP_net`
and consumption relation `consumption == (1 - sr) * GDP_net` are
registered; but `sr` itself is declared with no value (its value is left
to instantiation), so those relations reference an unassigned symbol. -/
theorem C8_sr_unassigned {ρ : Type} (p : Params ρ) (ext : ExtData ρ) (srv : ℝ) :
    (assembledParams p).alpha = some p.alpha ∧
    (assembledParams p).dk = some p.dk ∧
    (assembledParams p).elasmu = some p.elasmu ∧
    (assembledParams p).PRTP = some p.PRTP ∧
    (assembledParams p).MAC_gamma = some p.MAC_gamma ∧
    (assembledParams p).MAC_beta = some p.MAC_beta ∧
    (assembledParams p).sr = none ∧
    RTag.investments ∈ (regionalRules p ext srv).map RRule.tag ∧
    RTag.consumption ∈ (regionalRules p ext srv).map RRule.tag := by
  refine ⟨rfl, rfl, rfl, rfl, rfl, rfl, rfl, ?_, ?_⟩ <;>
    cases hir : p.inertia_regional <;> simp [regionalRules, hir]

/-- C9 counterexample: a configuration with a non-positive time span
(`endyear = beginyear`) and an empty region set is not rejected at
assembly: all seven unconditional global relations and all ten regional
relations are registered and the model is produced. -/
theorem C9_counterexample :
    badP.endyear ≤ badP.beginyear ∧ badP.regionList = [] ∧
    (globalRules badP ext0).length = 7 ∧
    (regionalRules badP ext0 0).length = 10 := by
  refine ⟨?_, rfl, rfl, rfl⟩
  norm_num [badP, p0cb]

/-- C9 amended: assembly performs no configuration validation — even with
a non-positive time span and an empty region set, the unconditional
constraint relations are committed and a model is produced (nothing is
detected, reported, or aborted). -/
theorem C9_no_validation {ρ : Type} (p : Params ρ) (ext : ExtData ρ) (srv : ℝ)
    (hts : p.endyear ≤ p.beginyear) (hrg : p.regionList = []) :
    GTag.emissions_sum ∈ (globalRules p ext).map GRule.tag ∧
    RTag.regional_emissions ∈ (regionalRules p ext srv).map RRule.tag := by
  constructor
  · cases hcb : p.carbonbudget <;> cases hig : p.inertia_global <;>
      cases hml : p.min_level <;> simp [globalRules, hcb, hig, hml]
  · cases hir : p.inertia_regional <;> simp [regionalRules, hir]

/-- Witness for C9 amended at the degenerate configuration. -/
theorem C9_no_validation_witness :
    GTag.emissions_sum ∈ (globalRules badP ext0).map GRule.tag ∧
    RTag.regional_emissions ∈ (regionalRules badP ext0 0).map RRule.tag :=
  C9_no_validation badP ext0 0 (by norm_num [badP, p0cb]) rfl

section Counting

variable {ρ : Type} [DecidableEq ρ]

theorem countP_init_flatMap_re (p : Params ρ) (ext : ExtData ρ) (traj : Traj ρ)
    (r : ρ) :
    ∀ l : List ρ,
      (l.flatMap fun q =>
        ([⟨.regional_emissions q, traj.regional_emissions 0 q = ext.baseline 0 q⟩,
          ⟨.capital_stock q, traj.capital_stock 0 q = p.init_capitalstock q⟩,
          ⟨.carbonprice q, traj.carbonprice 0 q = 0⟩] : List (InitC ρ))).countP
        (fun c => decide (c.target = InitTarget.regional_emissions r)) = l.count r
  | [] => rfl
  | a :: l => by
    rw [List.flatMap_cons, List.countP_append,
      countP_init_flatMap_re p ext traj r l, List.count_cons]
    by_cases har : a = r
    · subst har
      simp [List.countP_cons, Nat.add_comm]
    · simp [List.countP_cons, har, Ne.symm har]

theorem countP_init_flatMap_cap (p : Params ρ) (ext : ExtData ρ) (traj : Traj ρ)
    (r : ρ) :
    ∀ l : List ρ,
      (l.flatMap fun q =>
        ([⟨.regional_emissions q, traj.regional_emissions 0 q = ext.baseline 0 q⟩,
          ⟨.capital_stock q, traj.capital_stock 0 q = p.init_capitalstock q⟩,
          ⟨.carbonprice q, traj.carbonprice 0 q = 0⟩] : List (InitC ρ))).countP
        (fun c => decide (c.target = InitTarget.capital_stock r)) = l.count r
  | [] => rfl
  | a :: l => by
    rw [List.flatMap_cons, List.countP_append,
      countP_init_flatMap_cap p ext traj r l, List.count_cons]
    by_cases har : a = r
    · subst har
      simp [List.countP_cons, Nat.add_comm]
    · simp [List.countP_cons, har, Ne.symm har]

theorem countP_init_flatMap_cp (p : Params ρ) (ext : ExtData ρ) (traj : Traj ρ)
    (r : ρ) :
    ∀ l : List ρ,
      (l.flatMap fun q =>
        ([⟨.regional_emissions q, traj.regional_emissions 0 q = ext.baseline 0 q⟩,
          ⟨.capital_stock q, traj.capital_stock 0 q = p.init_capitalstock q⟩,
          ⟨.carbonprice q, traj.carbonprice 0 q = 0⟩] : List (InitC ρ))).countP
        (fun c => decide (c.target = InitTarget.carbonprice r)) = l.count r
  | [] => rfl
  | a :: l => by
    rw [List.flatMap_cons, List.countP_append,
      countP_init_flatMap_cp p ext traj r l, List.count_cons]
    by_cases har : a = r
    · subst har
      simp [List.countP_cons, Nat.add_comm]
    · simp [List.countP_cons, har, Ne.symm har]

theorem countP_init_flatMap_global (p : Params ρ) (ext : ExtData ρ) (traj : Traj ρ)
    (tgt : InitTarget ρ)
    (h1 : ∀ q, InitTarget.regional_emissions q ≠ tgt)
    (h2 : ∀ q, InitTarget.capital_stock q ≠ tgt)
    (h3 : ∀ q, InitTarget.carbonprice q ≠ tgt) :
    ∀ l : List ρ,
      (l.flatMap fun q =>
        ([⟨.regional_emissions q, traj.regional_emissions 0 q = ext.baseline 0 q⟩,
          ⟨.capital_stock q, traj.capital_stock 0 q = p.init_capitalstock q⟩,
          ⟨.carbonprice q, traj.carbonprice 0 q = 0⟩] : List (InitC ρ))).countP
        (fun c => decide (c.target = tgt)) = 0
  | [] => rfl
  | a :: l => by
    rw [List.flatMap_cons, List.countP_append,
      countP_init_flatMap_global p ext traj tgt h1 h2 h3 l]
    simp [List.countP_cons, h1 a, h2 a, h3 a]

theorem initCount_temperature (p : Params ρ) (ext : ExtData ρ) (traj : Traj ρ) :
    initCount p ext traj .temperature = 1 := by
  simp only [initCount, initList]
  rw [List.countP_append, List.countP_cons,
    countP_init_flatMap_global p ext traj _ (fun q => by simp) (fun q => by simp)
      (fun q => by simp)]
  simp [List.countP_cons]

theorem initCount_global_emissions (p : Params ρ) (ext : ExtData ρ) (traj : Traj ρ) :
    initCount p ext traj .global_emissions = 1 := by
  simp only [initCount, initList]
  rw [List.countP_append, List.countP_cons,
    countP_init_flatMap_global p ext traj _ (fun q => by simp) (fun q => by simp)
      (fun q => by simp)]
  simp [List.countP_cons]

theorem initCount_cumulative (p : Params ρ) (ext : ExtData ρ) (traj : Traj ρ) :
    initCount p ext traj .cumulative_emissions = 1 := by
  simp only [initCount, initList]
  rw [List.countP_append, List.countP_cons,
    countP_init_flatMap_global p ext traj _ (fun q => by simp) (fun q => by simp)
      (fun q => by simp)]
  simp [List.countP_cons]

theorem initCount_npv (p : Params ρ) (ext : ExtData ρ) (traj : Traj ρ) :
    initCount p ext traj .NPV = 1 := by
  simp only [initCount, initList]
  rw [List.countP_append, List.countP_cons,
    countP_init_flatMap_global p ext traj _ (fun q => by simp) (fun q => by simp)
      (fun q => by simp)]
  simp [List.countP_cons]

theorem initCount_re (p : Params ρ) (ext : ExtData ρ) (traj : Traj ρ) (r : ρ) :
    initCount p ext traj (.regional_emissions r) = p.regionList.count r := by
  simp only [initCount, initList]
  rw [List.countP_append, List.countP_cons,
    countP_init_flatMap_re p ext traj r p.regionList]
  simp [List.countP_cons]

theorem initCount_cap (p : Params ρ) (ext : ExtData ρ) (traj : Traj ρ) (r : ρ) :
    initCount p ext traj (.capital_stock r) = p.regionList.count r := by
  simp only [initCount, initList]
  rw [List.countP_append, List.countP_cons,
    countP_init_flatMap_cap p ext traj r p.regionList]
  simp [List.countP_cons]

theorem initCount_cp (p : Params ρ) (ext : ExtData ρ) (traj : Traj ρ) (r : ρ) :
    initCount p ext traj (.carbonprice r) = p.regionList.count r := by
  simp only [initCount, initList]
  rw [List.countP_append, List.countP_cons,
    countP_init_flatMap_cp p ext traj r p.regionList]
  simp [List.countP_cons]

end Counting

theorem gDefCounts {ρ : Type} (p : Params ρ) (ext : ExtData ρ) :
    gDefCount p ext .cumulative_emissionsdot = 1 ∧
    gDefCount p ext .NPVdot = 1 ∧
    gDefCount p ext .global_emissionsdot = 0 := by
  cases hcb : p.carbonbudget <;> cases hig : p.inertia_global <;>
    cases hml : p.min_level <;>
      refine ⟨?_, ?_, ?_⟩ <;>
        simp [gDefCount, globalRules, hcb, hig, hml, List.countP_append,
          List.countP_cons, gDefines]

theorem rDefCounts {ρ : Type} (p : Params ρ) (ext : ExtData ρ) (srv : ℝ) :
    rDefCount p ext srv .capital_stockdot = 1 ∧
    rDefCount p ext srv .regional_emissionsdot = 0 := by
  cases hir : p.inertia_regional <;>
    refine ⟨?_, ?_⟩ <;>
      simp [rDefCount, regionalRules, hir, List.countP_append,
        List.countP_cons, rDefines]

/-- C6 counterexample: in the assembled model, the derivative variables
`global_emissionsdot` and `regional_emissionsdot` have NO defining
differential-equation constraint (they appear only in the optional
inertia inequality bounds), so not every declared derivative variable has
exactly one defining equation. -/
theorem C6_counterexample :
    gDefCount p0 ext0 GDV.global_emissionsdot = 0 ∧
    rDefCount p0 ext0 0 RDV.regional_emissionsdot = 0 := by
  constructor <;> rfl

/-- C6 amended: of the five declared derivative variables, exactly three
(`cumulative_emissionsdot`, `NPVdot`, `capital_stockdot`) have exactly one
defining differential-equation constraint; `global_emissionsdot` and
`regional_emissionsdot` have none.  Every stateful trajectory (variable
with a declared derivative) does have exactly one initial-condition
constraint. -/
theorem C6_equation_structure {ρ : Type} [DecidableEq ρ] (p : Params ρ)
    (ext : ExtData ρ) (srv : ℝ) (traj : Traj ρ) (hnd : p.regionList.Nodup) :
    gDefCount p ext GDV.cumulative_emissionsdot = 1 ∧
    gDefCount p ext GDV.NPVdot = 1 ∧
    gDefCount p ext GDV.global_emissionsdot = 0 ∧
    rDefCount p ext srv RDV.capital_stockdot = 1 ∧
    rDefCount p ext srv RDV.regional_emissionsdot = 0 ∧
    initCount p ext traj .cumulative_emissions = 1 ∧
    initCount p ext traj .global_emissions = 1 ∧
    initCount p ext traj .NPV = 1 ∧
    ∀ r ∈ p.regionList,
      initCount p ext traj (.capital_stock r) = 1 ∧
      initCount p ext traj (.regional_emissions r) = 1 := by
  obtain ⟨hg1, hg2, hg3⟩ := gDefCounts p ext
  obtain ⟨hr1, hr2⟩ := rDefCounts p ext srv
  refine ⟨hg1, hg2, hg3, hr1, hr2, initCount_cumulative p ext traj,
    initCount_global_emissions p ext traj, initCount_npv p ext traj,
    fun r hr => ⟨?_, ?_⟩⟩
  · rw [initCount_cap p ext traj r]
    exact List.count_eq_one_of_mem hnd hr
  · rw [initCount_re p ext traj r]
    exact List.count_eq_one_of_mem hnd hr

/-- Witness for C6 amended at the concrete single-region instance. -/
theorem C6_equation_structure_witness :
    gDefCount p0 ext0 GDV.cumulative_emissionsdot = 1 ∧
    gDefCount p0 ext0 GDV.NPVdot = 1 ∧
    gDefCount p0 ext0 GDV.global_emissionsdot = 0 ∧
    rDefCount p0 ext0 0 RDV.capital_stockdot = 1 ∧
    rDefCount p0 ext0 0 RDV.regional_emissionsdot = 0 ∧
    initCount p0 ext0 trivTraj .cumulative_emissions = 1 ∧
    initCount p0 ext0 trivTraj .global_emissions = 1 ∧
    initCount p0 ext0 trivTraj .NPV = 1 ∧
    initCount p0 ext0 trivTraj (.capital_stock ()) = 1 ∧
    initCount p0 ext0 trivTraj (.regional_emissions ()) = 1 := by
  obtain ⟨h1, h2, h3, h4, h5, h6, h7, h8, h9⟩ :=
    C6_equation_structure p0 ext0 0 trivTraj (by simp [p0, p0cb])
  obtain ⟨ha, hb⟩ := h9 () (by simp [p0, p0cb])
  exact ⟨h1, h2, h3, h4, h5, h6, h7, h8, ha, hb⟩

end MIMOSA
